import Mathlib

/-!
A shallow embedding of the dispatch and reply-routing engine of the
`webex_bot` package (file `webex_bot/webex_bot.py`, plus the two example
commands `commands/help.py` and `commands/echo.py`).

Side effects of the Python code are made explicit:
* every outgoing `self.teams.messages.create(...)` call is recorded as a
  `SentMessage` value;
* every `self.teams.messages.delete(...)` call is recorded by its message id;
* which command phases were invoked is recorded in `phases_run`;
* a Python runtime error (`UnboundLocalError`, `IndexError`) is modelled by a
  `PyError` value returned next to the trace accumulated so far.

User-supplied command behaviour (the `pre_card_load_reply`, `pre_execute` and
`card_callback` methods of a command object) is arbitrary Python code; for a
single dispatched event each such method either returns a reply value or
raises a `BotException`, so a command is embedded as a record carrying, for
the event under consideration, the outcome of each phase as an
`Except BotException Reply` value.

The Python registry `self.commands` is a `set`; its iteration order is
unspecified.  It is embedded as a `List Command`, fixing one iteration
order, which the spec itself declares arbitrary.
-/

namespace WebexBot

/-- Modelled from the spec: the typed bot exception of `webex_bot/exceptions.py`
(not under `src/`): a domain-level failure carrying a user-facing reply body,
a send-to-private flag, and an internal debug message. -/
structure BotException where
  reply_message : String
  reply_one_to_one : Bool
  debug_message : String
deriving Repr, DecidableEq

/-- Modelled from the spec: the structured `Response` of
`webex_bot/models/response.py` (not under `src/`), restricted to the fields
the dispatch code reads or writes: an optional explicit room, an optional
thread-parent reference, and the message payload (text, markdown,
attachments). `as_dict` is the identity on this record. -/
structure Response where
  roomId : Option String := none
  parentId : Option String := none
  text : Option String := none
  markdown : Option String := none
  attachments : Option String := none
deriving Repr, DecidableEq

/-- An element of a list-valued reply: either a structured `Response` or a
plain value treated as text (`do_reply`, lines 247-256). -/
inductive ReplyItem where
  | resp (r : Response)
  | text (s : String)
deriving Repr, DecidableEq

/-- The value returned by a command phase: Python `None`, a plain string, a
`Response` object, or a list mixing the two. -/
inductive Reply where
  | none
  | text (s : String)
  | resp (r : Response)
  | list (items : List ReplyItem)
deriving Repr, DecidableEq

/-- A registered command.  The attribute set is the one read by
`webex_bot.py` (`command_keyword`, `card_callback_keyword`,
`exact_command_keyword_match`, `card`, `chained_commands`, `approved_rooms`,
`delete_previous_message`, `help_message`); the class itself lives in
`webex_bot/models/command.py`, which is not under `src/`, so the attribute
types follow the spec (§3): the keyword is a string that may be empty, the
card-callback keyword is an optional string.  The three `Except` fields
record the outcome of the command's three phase methods on the event being
dispatched (see the file header). -/
inductive Command where
  | mk
    (command_keyword : String)
    (card_callback_keyword : Option String)
    (help_message : String)
    (exact_command_keyword_match : Bool)
    (card : Option String)
    (approved_rooms : List String)
    (delete_previous_message : Bool)
    (pre_card_load_reply_result : Except BotException Reply)
    (pre_execute_result : Except BotException Reply)
    (card_callback_result : Except BotException Reply)
    (chained_commands : List Command)

def Command.command_keyword : Command → String
  | .mk k _ _ _ _ _ _ _ _ _ _ => k

def Command.card_callback_keyword : Command → Option String
  | .mk _ k _ _ _ _ _ _ _ _ _ => k

def Command.help_message : Command → String
  | .mk _ _ h _ _ _ _ _ _ _ _ => h

def Command.exact_command_keyword_match : Command → Bool
  | .mk _ _ _ e _ _ _ _ _ _ _ => e

def Command.card : Command → Option String
  | .mk _ _ _ _ c _ _ _ _ _ _ => c

def Command.approved_rooms : Command → List String
  | .mk _ _ _ _ _ r _ _ _ _ _ => r

def Command.delete_previous_message : Command → Bool
  | .mk _ _ _ _ _ _ d _ _ _ _ => d

def Command.pre_card_load_reply_result : Command → Except BotException Reply
  | .mk _ _ _ _ _ _ _ p _ _ _ => p

def Command.pre_execute_result : Command → Except BotException Reply
  | .mk _ _ _ _ _ _ _ _ p _ _ => p

def Command.card_callback_result : Command → Except BotException Reply
  | .mk _ _ _ _ _ _ _ _ _ c _ => c

def Command.chained_commands : Command → List Command
  | .mk _ _ _ _ _ _ _ _ _ _ c => c

/-- Modelled from the spec: constructing a command with only a keyword and a
help message, every optional attribute absent (as `HelpCommand.__init__` and
`EchoCommand.__init__` do): no card-callback keyword, no card, no chained
commands, no room override, and default no-op phase methods (§9: "default
no-op implementations"), whose outcome is a `None` reply. -/
def Command.simple (kw help : String) : Command :=
  .mk kw Option.none help true Option.none [] false
    (.ok .none) (.ok .none) (.ok .none) []

/-- A recorded `self.teams.messages.create(...)` call: the keyword arguments
the dispatch code passes to the send-adapter. -/
structure SentMessage where
  roomId : Option String := none
  toPersonEmail : Option String := none
  parentId : Option String := none
  text : Option String := none
  markdown : Option String := none
  attachments : Option String := none
deriving Repr, DecidableEq

/-- The observable effects of dispatching one event. -/
structure Trace where
  sent : List SentMessage := []
  deleted : List String := []
  phases_run : List String := []
  fallback_invoked : Bool := false
deriving Repr, DecidableEq

def Trace.empty : Trace := {}

/-- A Python runtime error escaping the dispatch code. -/
inductive PyError where
  | unboundLocalError
  | indexError
deriving Repr, DecidableEq

/-- The `teams_message` argument of `process_raw_command` (for a plain text
event the incoming message object; for a card action the
`attachment_actions` object, of which dispatch reads only `roomId` and
`messageId`). -/
structure TeamsMessage where
  personEmail : String := ""
  text : String := ""
  roomId : String
  messageId : Option String := none
deriving Repr, DecidableEq

/-- The `attachment_actions` object of a card action: the two keyword inputs
read from `attachment_actions.inputs`, plus the fields dispatch reads. -/
structure AttachmentActions where
  inputs_callback_keyword : Option String := none
  inputs_command_keyword : Option String := none
  roomId : String
  messageId : Option String := none
deriving Repr, DecidableEq

/-- The fields of the `activity` dictionary the dispatch code reads:
`activity['actor']['type']`, `activity['actor']['emailAddress']`,
`activity['target']['tags']`, `activity.get('parent', {}).get('id', ...)`
(modelled as the parent id when a parent entry with an id is present) and
`activity.get('id')`. -/
structure Activity where
  actor_type : String := "PERSON"
  actor_email : String := ""
  target_tags : List String := []
  parent_id : Option String := none
  act_id : Option String := none
deriving Repr, DecidableEq

/-- The bot state read by dispatch: the `threads` flag, the command registry,
the help command, whether a fallback handler was registered via
`set_default_handler`, the three approval lists, and the display name
fetched at startup. -/
structure Bot where
  threads : Bool := true
  commands : List Command
  help_command : Command
  default_handler : Bool := false
  approved_users : List String := []
  approved_domains : List String := []
  approved_rooms : List String := []
  bot_display_name : String := ""

/-- The membership-lookup collaborator
(`self.teams.memberships.list(roomId=..., personEmail=...)`): for a room id
and a person email, either an API error or the list of the returned
memberships' `personEmail` fields. -/
def MembershipLookup : Type := String → String → Except Unit (List String)

/-- Python truthiness of an optional string attribute: `None` and the empty
string are falsy. -/
def truthyStr : Option String → Bool
  | Option.none => false
  | Option.some s => s ≠ ""

/-- Modelled from the spec: `quote_info` of `webex_bot/formatting.py` (not
under `src/`), the formatting helper that renders the heads-up notice as a
quoted line. -/
def quote_info (message : String) : String :=
  "<blockquote class=info>" ++ message

/-- `add_command` (lines 94-106): scan the registry for a duplicate of the
new command's truthy `card_callback_keyword` and raise on collision, then
add the command and each of its `chained_commands`.  The Python `set.add`
calls are modelled as list appends. -/
def add_command (commands : List Command) (command_class : Command) :
    Except String (List Command) :=
  if commands.any fun c =>
      truthyStr command_class.card_callback_keyword &&
        c.card_callback_keyword == command_class.card_callback_keyword then
    .error ("Error adding new command: duplicate callback_keyword found for " ++
      command_class.command_keyword)
  else
    .ok (commands ++ command_class :: command_class.chained_commands)

/-- Python `user_email.split('@')` for the one-character separator: split of
the character list at every occurrence of `sep`. -/
def splitChar (sep : Char) : List Char → List (List Char)
  | [] => [[]]
  | c :: cs =>
    let rest := splitChar sep cs
    if c = sep then [] :: rest
    else
      match rest with
      | r :: rs => (c :: r) :: rs
      | [] => [[c]]

def pySplit (s : String) (sep : Char) : List String :=
  (splitChar sep s.data).map String.mk

/-- `is_user_member_of_room` (lines 129-139): iterate over the approved
rooms; a lookup failure (`ApiError`) for one room is caught and only logged,
leaving the flag unchanged; a returned membership whose `personEmail` equals
the user's sets the flag. -/
def is_user_member_of_room (lookup : MembershipLookup) (user_email : String)
    (approved_rooms : List String) : Bool :=
  approved_rooms.foldl
    (fun is_user_member approved_room =>
      match lookup approved_room user_email with
      | .ok room_members =>
        room_members.foldl
          (fun b member => if member = user_email then true else b)
          is_user_member
      | .error _ => is_user_member)
    false

/-- The last two `elif` arms of `check_user_approved` (lines 120-123):
approved users, then approved rooms via the membership lookup. -/
def check_user_approved_rest (bot : Bot) (lookup : MembershipLookup)
    (user_email : String) (approved_rooms : List String) : Bool :=
  if bot.approved_users.length > 0 ∧ bot.approved_users.contains user_email then
    true
  else if approved_rooms.length > 0 ∧
      is_user_member_of_room lookup user_email approved_rooms then
    true
  else
    false

/-- `check_user_approved` (lines 112-127).  The `elif` chain is evaluated in
order with Python short-circuiting; `user_email.split('@')[1]` raises
`IndexError` when the email holds no `'@'`, which the code does not catch. -/
def check_user_approved (bot : Bot) (lookup : MembershipLookup)
    (user_email : String) (approved_rooms : List String) :
    Except PyError Bool :=
  if bot.approved_users.length = 0 ∧ bot.approved_domains.length = 0 ∧
      approved_rooms.length = 0 then
    .ok true
  else if bot.approved_domains.length > 0 then
    match (pySplit user_email '@')[1]? with
    | Option.none => .error .indexError
    | Option.some domain =>
      if bot.approved_domains.contains domain then .ok true
      else .ok (check_user_approved_rest bot lookup user_email approved_rooms)
  else
    .ok (check_user_approved_rest bot lookup user_email approved_rooms)

/-- Python `str.lower()`.  (The Lean core `String.toLower` computes the same
character map but is not kernel-reducible, so the character-list form is
used; the keywords and inputs involved are ASCII.) -/
def pyLower (s : String) : String :=
  String.mk (s.data.map Char.toLower)

/-- Whether `needle` occurs as a contiguous run inside `haystack`. -/
def hasSublist (needle : List Char) : List Char → Bool
  | [] => needle.isEmpty
  | c :: cs => needle.isPrefixOf (c :: cs) || hasSublist needle cs

/-- Python `user_command.find(needle) != -1`: the needle occurs somewhere in
the string. -/
def find_substring (haystack needle : String) : Bool :=
  hasSublist needle.data haystack.data

/-- The command-matching loop of `process_raw_command` (lines 179-196) over
the already lower-cased input, with its `break` modelled as returning the
first match.  For a plain-text event a command with a truthy
`command_keyword` is matched by mode (exact equality or substring); every
other command — and every command on a card-callback event — falls to the
`else` arm, which matches when the input equals its `command_keyword` or its
`card_callback_keyword`. -/
def find_matching_command (is_card_callback_command : Bool)
    (user_command : String) : List Command → Option Command
  | [] => Option.none
  | c :: rest =>
    if ¬ is_card_callback_command ∧ c.command_keyword ≠ "" then
      if c.exact_command_keyword_match then
        if user_command = c.command_keyword then Option.some c
        else find_matching_command is_card_callback_command user_command rest
      else
        if find_substring user_command c.command_keyword then Option.some c
        else find_matching_command is_card_callback_command user_command rest
    else
      if user_command = c.command_keyword ∨
          c.card_callback_keyword = Option.some user_command then
        Option.some c
      else find_matching_command is_card_callback_command user_command rest

/-- `get_message_passed_to_command` (lines 301-305): strip the keyword's
case-insensitive leading occurrence from the message
(`message[len(command):]` is the code-point slice). -/
def get_message_passed_to_command (command message : String) : String :=
  if command ≠ "" ∧ (pyLower command).data.isPrefixOf (pyLower message).data then
    String.mk (message.data.drop command.length)
  else
    message

/-- `run_pre_card_load_reply` (lines 280-285): the phase's outcome with a
raised `BotException` converted into its reply body and private flag. -/
def run_pre_card_load_reply (command : Command) : Reply × Bool :=
  match command.pre_card_load_reply_result with
  | .ok r => (r, false)
  | .error e => (.text e.reply_message, e.reply_one_to_one)

/-- `run_pre_execute` (lines 287-292). -/
def run_pre_execute (command : Command) : Reply × Bool :=
  match command.pre_execute_result with
  | .ok r => (r, false)
  | .error e => (.text e.reply_message, e.reply_one_to_one)

/-- `run_command_and_handle_bot_exceptions` (lines 294-299): runs the
command's `card_callback` (the execute phase). -/
def run_command_and_handle_bot_exceptions (command : Command) : Reply × Bool :=
  match command.card_callback_result with
  | .ok r => (r, false)
  | .error e => (.text e.reply_message, e.reply_one_to_one)

/-- `send_message_to_room_or_person` (lines 262-278); `threads` is
`self.threads`.  Returns the `messages.create` calls issued, in order. -/
def send_message_to_room_or_person (threads : Bool)
    (user_email room_id : String) (reply_one_to_one is_one_on_one_space : Bool)
    (reply : String) (conv_target_id : Option String) : List SentMessage :=
  let heads_up :=
    quote_info (user_email ++ " I\x27ve messaged you 1-1. Please reply to me there.")
  if reply_one_to_one then
    (if ¬ is_one_on_one_space then
      if threads then
        [{ roomId := Option.some room_id, markdown := Option.some heads_up,
           parentId := conv_target_id }]
      else
        [{ roomId := Option.some room_id, markdown := Option.some heads_up }]
    else []) ++
    (if threads then
      [{ toPersonEmail := Option.some user_email, markdown := Option.some reply,
         parentId := conv_target_id }]
    else
      [{ toPersonEmail := Option.some user_email, markdown := Option.some reply }])
  else
    if threads then
      [{ roomId := Option.some room_id, markdown := Option.some reply,
         parentId := conv_target_id }]
    else
      [{ roomId := Option.some room_id, markdown := Option.some reply }]

/-- The `messages.create(**response.as_dict())` call for a `Response`. -/
def sendResponse (r : Response) : SentMessage :=
  { roomId := r.roomId, parentId := r.parentId, text := r.text,
    markdown := r.markdown, attachments := r.attachments }

/-- `do_reply` (lines 238-260); `threads` is `self.threads`.  Returns the
`messages.create` calls issued.  Python truthiness drives the branch taken:
a `None` reply, an empty string and an empty list are falsy and send
nothing.  Note line 252: the list arm fills the thread parent into a
`Response` element without consulting `self.threads`, unlike line 242. -/
def do_reply (threads : Bool) (reply : Reply) (room_id user_email : String)
    (reply_one_to_one is_one_on_one_space : Bool)
    (conv_target_id : Option String) : List SentMessage :=
  match reply with
  | .resp r =>
    let r := if truthyStr r.roomId then r else { r with roomId := Option.some room_id }
    let r :=
      if ¬ truthyStr r.parentId ∧ truthyStr conv_target_id ∧ threads then
        { r with parentId := conv_target_id }
      else r
    [sendResponse r]
  | .list items =>
    items.flatMap fun item =>
      match item with
      | .resp r =>
        let r := if truthyStr r.roomId then r else { r with roomId := Option.some room_id }
        let r :=
          if ¬ truthyStr r.parentId ∧ truthyStr conv_target_id then
            { r with parentId := conv_target_id }
          else r
        [sendResponse r]
      | .text s =>
        send_message_to_room_or_person threads user_email room_id
          reply_one_to_one is_one_on_one_space s conv_target_id
  | .text s =>
    if s = "" then []
    else
      send_message_to_room_or_person threads user_email room_id
        reply_one_to_one is_one_on_one_space s conv_target_id
  | .none => []

/-- Lines 212-236 of `process_raw_command`: the tail run once a command has
been selected (and passed any per-command approval check).  The Python local
`reply_one_to_one` is assigned only in the `else` arm (line 234); the card
arm leaves it unbound, so the final `do_reply` call (line 236) raises
`UnboundLocalError` there.  The local is embedded as an `Option Bool` that
is `none` exactly when unassigned. -/
def dispatch_matched_command (bot : Bot) (command : Command)
    (raw_message : String) (teams_message : TeamsMessage)
    (activity : Activity) (is_card_callback_command : Bool)
    (user_email : String) : Trace × Option PyError :=
  let room_id := teams_message.roomId
  let is_one_on_one_space := activity.target_tags.contains "ONE_ON_ONE"
  -- Line 212: the stripped text is handed to the phase methods, whose
  -- outcomes this embedding carries as data on the command, so the binding
  -- is unused here.
  let _message_without_command :=
    get_message_passed_to_command command.command_keyword raw_message
  let thread_parent_id :=
    match activity.parent_id with
    | Option.some p => Option.some p
    | Option.none => activity.act_id
  let deleted : List String :=
    if command.delete_previous_message then
      match teams_message.messageId with
      | Option.some mid => [mid]
      | Option.none => []
    else []
  let step :
      List SentMessage × Reply × Option Bool × List String :=
    if ¬ is_card_callback_command ∧ command.card.isSome then
      let response : Response :=
        { text := Option.some "This bot requires a client which can render cards.",
          attachments := command.card }
      let (pre_card_load_reply, pre_card_load_reply_one_to_one) :=
        run_pre_card_load_reply command
      let sent := do_reply bot.threads pre_card_load_reply room_id user_email
        pre_card_load_reply_one_to_one is_one_on_one_space thread_parent_id
      (sent, .resp response, Option.none, ["pre_card_load_reply"])
    else
      let (pre_execute_reply, pre_execute_reply_one_to_one) :=
        run_pre_execute command
      let sent := do_reply bot.threads pre_execute_reply room_id user_email
        pre_execute_reply_one_to_one is_one_on_one_space thread_parent_id
      let (reply, reply_one_to_one) :=
        run_command_and_handle_bot_exceptions command
      (sent, reply, Option.some reply_one_to_one,
        ["pre_execute", "card_callback"])
  match step with
  | (sent₁, reply, reply_one_to_one, phases) =>
    match reply_one_to_one with
    | Option.none =>
      ({ sent := sent₁, deleted := deleted, phases_run := phases },
        Option.some .unboundLocalError)
    | Option.some flag =>
      let sent₂ := do_reply bot.threads reply room_id user_email flag
        is_one_on_one_space thread_parent_id
      ({ sent := sent₁ ++ sent₂, deleted := deleted, phases_run := phases },
        Option.none)

/-- `process_raw_command` (lines 171-236): lower-case the input, run the
matching loop; on no match invoke the fallback handler if registered (and
stop), else fall back to the help command; on a match run the per-command
room approval when the command declares `approved_rooms`; then run the
selected command through `dispatch_matched_command`. -/
def process_raw_command (bot : Bot) (lookup : MembershipLookup)
    (raw_message : String) (teams_message : TeamsMessage)
    (user_email : String) (activity : Activity)
    (is_card_callback_command : Bool) : Trace × Option PyError :=
  let user_command := pyLower raw_message
  match find_matching_command is_card_callback_command user_command
      bot.commands with
  | Option.none =>
    if bot.default_handler then
      ({ Trace.empty with fallback_invoked := true }, Option.none)
    else
      dispatch_matched_command bot bot.help_command raw_message teams_message
        activity is_card_callback_command user_email
  | Option.some command =>
    if command.approved_rooms ≠ [] then
      match check_user_approved bot lookup user_email command.approved_rooms with
      | .error e => (Trace.empty, Option.some e)
      | .ok approved =>
        if approved then
          dispatch_matched_command bot command raw_message teams_message
            activity is_card_callback_command user_email
        else (Trace.empty, Option.none)
    else
      dispatch_matched_command bot command raw_message teams_message
        activity is_card_callback_command user_email

/-- `process_incoming_message` (lines 152-169): discard bot-authored events,
run the bot-level approval check (silently aborting on denial), strip the
bot's display name outside one-on-one spaces, then dispatch. -/
def process_incoming_message (bot : Bot) (lookup : MembershipLookup)
    (teams_message : TeamsMessage) (activity : Activity) :
    Trace × Option PyError :=
  let user_email := teams_message.personEmail
  let raw_message := teams_message.text
  let is_one_on_one_space := activity.target_tags.contains "ONE_ON_ONE"
  if activity.actor_type ≠ "PERSON" then (Trace.empty, Option.none)
  else
    match check_user_approved bot lookup user_email bot.approved_rooms with
    | .error e => (Trace.empty, Option.some e)
    | .ok approved =>
      if ¬ approved then (Trace.empty, Option.none)
      else
        let raw_message :=
          if ¬ is_one_on_one_space then
            (raw_message.replace bot.bot_display_name "").trim
          else raw_message
        process_raw_command bot lookup raw_message teams_message user_email
          activity false

/-- `process_incoming_card_action` (lines 141-150): read the callback and
command keywords from the card inputs; the event is a card-callback command
iff a callback keyword key is present (`is not None`); the raw message is
the callback keyword if truthy, else the command keyword (mapped to the
empty string when both are absent, where Python would fail on
`None.lower()` — no claim depends on that corner).  Note: no bot-level
approval check is performed on this path. -/
def process_incoming_card_action (bot : Bot) (lookup : MembershipLookup)
    (attachment_actions : AttachmentActions) (activity : Activity) :
    Trace × Option PyError :=
  let callback_keyword := attachment_actions.inputs_callback_keyword
  let command_keyword := attachment_actions.inputs_command_keyword
  let is_card_callback_command := callback_keyword.isSome
  let raw_message :=
    (if truthyStr callback_keyword then callback_keyword else command_keyword).getD ""
  process_raw_command bot lookup raw_message
    { roomId := attachment_actions.roomId,
      messageId := attachment_actions.messageId }
    activity.actor_email activity is_card_callback_command

/-- The lines `HelpCommand.execute` builds (`commands/help.py`, lines 12-15):
one entry per registered command whose keyword is not `"help"`. -/
def help_lines (commands : List Command) : List String :=
  (commands.filter fun c => c.command_keyword ≠ "help").map
    fun c => "\\" ++ c.command_keyword ++ " - " ++ c.help_message

/-- `HelpCommand.execute` (`commands/help.py`, lines 11-16), as a function of
the registry the command's bot holds. -/
def HelpCommand.execute (commands : List Command) : String :=
  "🛠️ Available Commands:\n" ++ String.intercalate "\n" (help_lines commands)

/-- `EchoCommand.__init__` (`commands/echo.py`): keyword `"echo"`, help
message, every optional attribute defaulted. -/
def EchoCommand : Command :=
  Command.simple "echo" "Echo back what you said."

/-- The registry built by `WebexBot.__init__` (lines 51-63): start from the
singleton set holding the help command, then `add_command(EchoCommand())`
when demo commands are requested. -/
def webexBot_initial_commands (help_command : Command)
    (include_demo_commands : Bool) : Except String (List Command) :=
  let commands := [help_command]
  if include_demo_commands then add_command commands EchoCommand
  else .ok commands

/-! Concrete fixtures used to instantiate the theorems below. -/

/-- The built-in help command as `HelpCommand.__init__` constructs it. -/
def helpCmd : Command :=
  Command.simple "help" "List all available bot commands."

/-- A membership-lookup collaborator that always answers with no members. -/
def lookupEmpty : MembershipLookup := fun _ _ => .ok []

/-- A message from `u@x.com` in room `room1`. -/
def tm0 : TeamsMessage :=
  { personEmail := "u@x.com", text := "", roomId := "room1" }

/-- A person-authored activity with thread root `a1`. -/
def act0 : Activity :=
  { actor_email := "u@x.com", act_id := Option.some "a1" }

/-- A command declaring a card, whose `pre_card_load_reply` returns
`"loading"`. -/
def cardCmd : Command :=
  .mk "card" Option.none "a card command" true (Option.some "CARDJSON") []
    false (.ok (.text "loading")) (.ok .none) (.ok .none) []

def botCard : Bot := { commands := [cardCmd], help_command := helpCmd }

/-- A command whose `execute`/`card_callback` raises a `BotException` with
`reply_message="sorry"` and `reply_one_to_one=False`. -/
def sorryCmd : Command :=
  .mk "boom" Option.none "raises" true Option.none [] false
    (.ok .none) (.ok .none) (.error ⟨"sorry", false, "dbg"⟩) []

def botSorry : Bot := { commands := [sorryCmd], help_command := helpCmd }

/-- A `BotException` raised by every phase of `errCmd`. -/
def excOops : BotException := ⟨"oops", true, "debug details"⟩

/-- A command all three of whose phases raise `excOops`. -/
def errCmd : Command :=
  .mk "err" Option.none "raises" true Option.none [] false
    (.error excOops) (.error excOops) (.error excOops) []

/-- A SUBSTRING-mode command with keyword `"echo"`. -/
def subEcho : Command :=
  .mk "echo" Option.none "substring echo" false Option.none [] false
    (.ok .none) (.ok .none) (.ok .none) []

/-- A fallback-only command: empty keyword, card-callback keyword `"go"`. -/
def fallbackOnly : Command :=
  .mk "" (Option.some "go") "fallback only" true Option.none [] false
    (.ok .none) (.ok .none) (.ok .none) []

/-- A command with card-callback keyword `"k"`. -/
def cmdA : Command :=
  .mk "a" (Option.some "k") "first owner of k" true Option.none [] false
    (.ok .none) (.ok .none) (.ok .none) []

/-- A second command with the same card-callback keyword `"k"`. -/
def cmdC : Command :=
  .mk "c" (Option.some "k") "second owner of k" true Option.none [] false
    (.ok .none) (.ok .none) (.ok .none) []

/-- A command with no card-callback keyword whose `chained_commands` hold
`cmdC`. -/
def cmdB : Command :=
  .mk "b" Option.none "chains cmdC" true Option.none [] false
    (.ok .none) (.ok .none) (.ok .none) [cmdC]

/-- A command reachable by card callback keyword `"cbk"`, whose execute
phase replies `"done"`. -/
def cbCmd : Command :=
  .mk "cb" (Option.some "cbk") "callback command" true Option.none [] false
    (.ok .none) (.ok .none) (.ok (.text "done")) []

/-- A bot that approves only `alice@x.com`. -/
def botCb : Bot :=
  { commands := [cbCmd], help_command := helpCmd,
    approved_users := ["alice@x.com"] }

/-- A card action submitting callback keyword `"cbk"` from room `room1`. -/
def aaCb : AttachmentActions :=
  { inputs_callback_keyword := Option.some "cbk", roomId := "room1" }

/-- An activity authored by the unapproved `bob@y.com`. -/
def actCb : Activity :=
  { actor_email := "bob@y.com", act_id := Option.some "a1" }

/-- A plain-text message from the unapproved `bob@y.com`. -/
def tmCb : TeamsMessage :=
  { personEmail := "bob@y.com", text := "cb", roomId := "room1" }

/-- A bot restricting interaction to the `example.com` email domain. -/
def botDomains : Bot :=
  { commands := [], help_command := helpCmd,
    approved_domains := ["example.com"] }

/-- A bot with no user/domain restrictions (room checks come from the
`approved_rooms` argument). -/
def botOpen : Bot := { commands := [], help_command := helpCmd }

/-- A membership lookup failing with an `ApiError` on room `r1` and finding
the user on room `r2`. -/
def lookupR : MembershipLookup := fun room user_email =>
  if room = "r1" then .error ()
  else if room = "r2" then .ok [user_email]
  else .ok []

/-- A bot with an empty registry and no fallback handler. -/
def botNoMatch : Bot := { commands := [], help_command := helpCmd }

/-- A command whose execute phase returns a list holding one `Response`. -/
def listCmd : Command :=
  .mk "lst" Option.none "list reply" true Option.none [] false
    (.ok .none) (.ok .none)
    (.ok (.list [.resp { text := Option.some "hi" }])) []

/-- A bot constructed with threading disabled. -/
def botList : Bot :=
  { threads := false, commands := [listCmd], help_command := helpCmd }


/-! Helper lemmas shared by the claim theorems. -/

/-- The inner membership scan of `is_user_member_of_room` sets the flag iff
the user occurs among the returned members. -/
theorem foldl_member_flag (u : String) :
    ∀ (ms : List String) (b : Bool),
      ms.foldl (fun b m => if m = u then true else b) b = (b || ms.contains u) := by
  intro ms
  induction ms with
  | nil => simp
  | cons m ms ih =>
    intro b
    rw [List.foldl_cons, ih, List.contains_cons]
    by_cases h : m = u
    · have h' : (u == m) = true := by simp [h.symm]
      simp [h, h']
    · have h0 : ¬ u = m := fun hh => h hh.symm
      have h' : (u == m) = false := by simp [h0]
      simp [h, h']

/-- `splitChar` on a list free of the separator returns the singleton. -/
theorem splitChar_eq_of_not_mem (sep : Char) :
    ∀ (l : List Char), sep ∉ l → splitChar sep l = [l] := by
  intro l
  induction l with
  | nil => intro _; rfl
  | cons c cs ih =>
    intro h
    have h1 : c ≠ sep := fun hc => h (hc ▸ List.mem_cons_self c cs)
    have h2 : sep ∉ cs := fun hc => h (List.mem_cons_of_mem c hc)
    simp [splitChar, h1, ih h2]

/-- `splitChar` never returns the empty list. -/
theorem splitChar_ne_nil (sep : Char) : ∀ (l : List Char), splitChar sep l ≠ [] := by
  intro l
  induction l with
  | nil => simp [splitChar]
  | cons c cs ih =>
    by_cases h : c = sep
    · simp [splitChar, h]
    · simp only [splitChar, if_neg h]
      cases hr : splitChar sep cs with
      | nil => exact absurd hr ih
      | cons r rs => simp

/-- `splitChar` on a list holding the separator yields at least two parts. -/
theorem splitChar_length_of_mem (sep : Char) :
    ∀ (l : List Char), sep ∈ l → 2 ≤ (splitChar sep l).length := by
  intro l
  induction l with
  | nil => intro h; cases h
  | cons c cs ih =>
    intro h
    by_cases hc : c = sep
    · simp only [splitChar, if_pos hc, List.length_cons]
      have : 1 ≤ (splitChar sep cs).length := by
        cases hr : splitChar sep cs with
        | nil => exact absurd hr (splitChar_ne_nil sep cs)
        | cons r rs => simp
      omega
    · have hmem : sep ∈ cs := by
        cases h with
        | head => exact absurd rfl hc
        | tail _ h => exact h
      simp only [splitChar, if_neg hc]
      cases hr : splitChar sep cs with
      | nil => exact absurd hr (splitChar_ne_nil sep cs)
      | cons r rs =>
        have := ih hmem
        rw [hr] at this
        simpa using this

/-- C1: on a fresh (non-card-callback) invocation of a matched command that
declares a card, dispatch sends the `pre_card_load_reply` phase's result,
but then raises `UnboundLocalError` at the final `do_reply` call (line 236):
the card branch (lines 220-230) never assigns the local `reply_one_to_one`
that line 236 reads.  The card message is therefore never sent (no sent
message carries the card attachment) and dispatch does not complete
normally, contradicting the claim. -/
theorem c1_card_branch_fails_before_card_send :
    process_raw_command botCard lookupEmpty "card" tm0 "u@x.com" act0 false =
      ({ sent := [{ roomId := Option.some "room1",
                    parentId := Option.some "a1",
                    markdown := Option.some "loading" }],
         phases_run := ["pre_card_load_reply"] },
       Option.some .unboundLocalError) := by
  decide

/-- C4: with threading disabled (`threads = false`), the list arm of the
reply router still fills the incoming thread root into a `Response`
element's parent reference (line 252 tests only `conv_target_id`, not
`self.threads`), so a reply does carry a thread-parent reference; shown
both at the router and through a full dispatch of a command whose execute
phase returns a list holding a `Response`. -/
theorem c4_list_reply_parent_despite_threads_off :
    do_reply false (.list [.resp { text := Option.some "hi" }]) "room1"
        "bob@x" false false (Option.some "thr1") =
      [{ roomId := Option.some "room1", parentId := Option.some "thr1",
         text := Option.some "hi" }] ∧
    process_raw_command botList lookupEmpty "lst" tm0 "u@x.com" act0 false =
      ({ sent := [{ roomId := Option.some "room1",
                    parentId := Option.some "a1",
                    text := Option.some "hi" }],
         phases_run := ["pre_execute", "card_callback"] },
       Option.none) := by
  constructor <;> decide

/-- C5: each phase wrapper catches a raised `BotException` and uses its
`(reply_message, reply_one_to_one)` pair as the phase's return value; and a
command whose execute phase raises with `reply_message="sorry"`,
`reply_one_to_one=False` leads dispatch to send `"sorry"` into the
originating room (not one-to-one) with no error escaping dispatch. -/
theorem c5_bot_exception_recovered :
    (∀ (c : Command) (e : BotException),
      c.pre_card_load_reply_result = .error e →
      run_pre_card_load_reply c = (.text e.reply_message, e.reply_one_to_one)) ∧
    (∀ (c : Command) (e : BotException),
      c.pre_execute_result = .error e →
      run_pre_execute c = (.text e.reply_message, e.reply_one_to_one)) ∧
    (∀ (c : Command) (e : BotException),
      c.card_callback_result = .error e →
      run_command_and_handle_bot_exceptions c =
        (.text e.reply_message, e.reply_one_to_one)) ∧
    process_raw_command botSorry lookupEmpty "boom" tm0 "u@x.com" act0 false =
      ({ sent := [{ roomId := Option.some "room1",
                    parentId := Option.some "a1",
                    markdown := Option.some "sorry" }],
         phases_run := ["pre_execute", "card_callback"] },
       Option.none) := by
  refine ⟨?_, ?_, ?_, by decide⟩ <;>
    intro c e h <;>
    simp [run_pre_card_load_reply, run_pre_execute,
      run_command_and_handle_bot_exceptions, h]

/-- C5 witness: the three wrappers applied to a command all of whose phases
raise `excOops`, and the end-to-end "sorry" dispatch. -/
theorem c5_bot_exception_recovered_witness :
    run_pre_card_load_reply errCmd = (.text "oops", true) ∧
    run_pre_execute errCmd = (.text "oops", true) ∧
    run_command_and_handle_bot_exceptions errCmd = (.text "oops", true) ∧
    process_raw_command botSorry lookupEmpty "boom" tm0 "u@x.com" act0 false =
      ({ sent := [{ roomId := Option.some "room1",
                    parentId := Option.some "a1",
                    markdown := Option.some "sorry" }],
         phases_run := ["pre_execute", "card_callback"] },
       Option.none) :=
  ⟨c5_bot_exception_recovered.1 errCmd excOops rfl,
   c5_bot_exception_recovered.2.1 errCmd excOops rfl,
   c5_bot_exception_recovered.2.2.1 errCmd excOops rfl,
   c5_bot_exception_recovered.2.2.2⟩

/-- C6: matching lower-cases the input (line 175), so an EXACT-mode command
with keyword `"echo"` is returned for input `"ECHO"`; input
`"say echo now"` does not match the EXACT command but does match a
SUBSTRING-mode command with the same keyword. -/
theorem c6_case_insensitive_match_modes :
    pyLower "ECHO" = "echo" ∧
    (∀ c : Command, c.command_keyword = "echo" →
      c.exact_command_keyword_match = true →
      find_matching_command false (pyLower "ECHO") [c] = Option.some c ∧
      find_matching_command false (pyLower "say echo now") [c] = Option.none) ∧
    (∀ c : Command, c.command_keyword = "echo" →
      c.exact_command_keyword_match = false →
      find_matching_command false (pyLower "say echo now") [c] =
        Option.some c) := by
  refine ⟨rfl, ?_, ?_⟩
  · intro c h1 h2
    constructor
    · show find_matching_command false "echo" [c] = Option.some c
      simp [find_matching_command, h1, h2]
    · show find_matching_command false "say echo now" [c] = Option.none
      simp [find_matching_command, h1, h2]
  · intro c h1 h2
    show find_matching_command false "say echo now" [c] = Option.some c
    have hs : find_substring "say echo now" "echo" = true := by decide
    simp [find_matching_command, h1, h2, hs]

/-- C6 witness: the EXACT-mode demo echo command and a SUBSTRING-mode
command with the same keyword, at the two concrete inputs. -/
theorem c6_case_insensitive_match_modes_witness :
    find_matching_command false (pyLower "ECHO") [EchoCommand] =
      Option.some EchoCommand ∧
    find_matching_command false (pyLower "say echo now") [EchoCommand] =
      Option.none ∧
    find_matching_command false (pyLower "say echo now") [subEcho] =
      Option.some subEcho :=
  ⟨(c6_case_insensitive_match_modes.2.1 EchoCommand rfl rfl).1,
   (c6_case_insensitive_match_modes.2.1 EchoCommand rfl rfl).2,
   c6_case_insensitive_match_modes.2.2 subEcho rfl rfl⟩

/-- C7 counterexample: `fallbackOnly` has an empty `command_keyword`, yet
the matcher selects it for the plain-text (non-card-callback) input
`"go"`, because the `else` arm of the matching loop (lines 193-196) also
applies to plain-text events when the command's keyword is falsy, and it
compares the input against `card_callback_keyword`. -/
theorem c7_empty_keyword_matched_by_callback_keyword :
    fallbackOnly.command_keyword = "" ∧
    find_matching_command false (pyLower "go") [fallbackOnly] =
      Option.some fallbackOnly :=
  ⟨rfl, rfl⟩

/-- C7 amended: a command with an empty keyword is selected by the matcher
for a plain-text input exactly when the lower-cased input equals its (empty)
`command_keyword` or equals its `card_callback_keyword`; it is not excluded
from plain-text matching. -/
theorem c7_empty_keyword_match_condition :
    ∀ (c : Command), c.command_keyword = "" → ∀ (u : String),
      (find_matching_command false u [c] = Option.some c ↔
        u = "" ∨ c.card_callback_keyword = Option.some u) := by
  intro c h u
  simp only [find_matching_command, h]
  split
  · rename_i hcond
    simp at hcond
  · split
    · rename_i _ hcond
      simp [hcond]
    · rename_i _ hcond
      simp [hcond]

/-- C7 witness for the amended statement: instantiated at `fallbackOnly`
and input `"go"`. -/
theorem c7_empty_keyword_match_condition_witness :
    find_matching_command false "go" [fallbackOnly] =
      Option.some fallbackOnly :=
  (c7_empty_keyword_match_condition fallbackOnly rfl "go").mpr
    (Or.inr rfl)

/-- C2 counterexample: registering `cmdB` (no callback keyword of its own,
but with `cmdC` among its `chained_commands`) into a registry already
holding `cmdA` succeeds without raising, although `cmdA` and `cmdC` are
distinct commands sharing the non-empty `card_callback_keyword` `"k"` —
the invariant is violated transitively. -/
theorem c2_chained_duplicate_not_rejected :
    add_command [cmdA] cmdB = .ok [cmdA, cmdB, cmdC] ∧
    truthyStr cmdA.card_callback_keyword = true ∧
    cmdA.card_callback_keyword = cmdC.card_callback_keyword ∧
    cmdA.command_keyword ≠ cmdC.command_keyword :=
  ⟨rfl, rfl, rfl, by decide⟩

/-- C2 amended: `add_command` raises exactly when the directly-registered
command's truthy `card_callback_keyword` collides with an already-registered
command's (lines 95-102); otherwise it adds the command and its chained
commands unchecked, so the uniqueness invariant is enforced only for the
directly-registered command, not transitively through `chained_commands`. -/
theorem c2_duplicate_check_direct_only :
    ∀ (cmds : List Command) (c : Command),
      ((∃ c' ∈ cmds, truthyStr c.card_callback_keyword = true ∧
          c'.card_callback_keyword = c.card_callback_keyword) →
        ∃ m, add_command cmds c = .error m) ∧
      (¬ (∃ c' ∈ cmds, truthyStr c.card_callback_keyword = true ∧
          c'.card_callback_keyword = c.card_callback_keyword) →
        add_command cmds c = .ok (cmds ++ c :: c.chained_commands)) := by
  intro cmds c
  have hb : (cmds.any fun c' => truthyStr c.card_callback_keyword &&
        c'.card_callback_keyword == c.card_callback_keyword) = true ↔
      ∃ c' ∈ cmds, truthyStr c.card_callback_keyword = true ∧
        c'.card_callback_keyword = c.card_callback_keyword := by
    simp [List.any_eq_true, Bool.and_eq_true]
  constructor
  · intro h
    exact ⟨_, by rw [add_command, if_pos (hb.mpr h)]⟩
  · intro h
    rw [add_command, if_neg (fun hc => h (hb.mp hc))]

/-- C2 witness for the amended statement: a direct collision on `"k"`
raises; registering the chaining command `cmdB` does not. -/
theorem c2_duplicate_check_direct_only_witness :
    (∃ m, add_command [cmdA] cmdC = .error m) ∧
    add_command [cmdA] cmdB = .ok [cmdA, cmdB, cmdC] :=
  ⟨(c2_duplicate_check_direct_only [cmdA] cmdC).1
      ⟨cmdA, by simp, rfl, rfl⟩,
   (c2_duplicate_check_direct_only [cmdA] cmdB).2 (by
      rintro ⟨c', _, htruthy, _⟩
      exact absurd htruthy (by decide))⟩

/-- C3 counterexample: `botCb` does not approve `bob@y.com`, yet a card
action from that sender is fully dispatched — command phases run and a
reply is sent — because `process_incoming_card_action` (lines 141-150)
never invokes the bot-level approval check. -/
theorem c3_card_action_skips_approval :
    check_user_approved botCb lookupEmpty "bob@y.com" botCb.approved_rooms =
      .ok false ∧
    actCb.actor_email = "bob@y.com" ∧
    process_incoming_card_action botCb lookupEmpty aaCb actCb =
      ({ sent := [{ roomId := Option.some "room1",
                    parentId := Option.some "a1",
                    markdown := Option.some "done" }],
         phases_run := ["pre_execute", "card_callback"] },
       Option.none) :=
  ⟨rfl, rfl, by decide⟩

/-- C3 amended: a plain-text event from a sender the approval policy does
not approve is silently aborted — no phase runs, nothing is sent — but the
card-action path performs no bot-level approval check: for a matched
command without a per-command room override, dispatch of the concrete card
action proceeds identically whatever the approval lists hold. -/
theorem c3_text_denied_silently_card_unchecked :
    (∀ (bot : Bot) (lookup : MembershipLookup) (tm : TeamsMessage)
        (act : Activity),
      act.actor_type = "PERSON" →
      check_user_approved bot lookup tm.personEmail bot.approved_rooms =
        .ok false →
      process_incoming_message bot lookup tm act =
        (Trace.empty, Option.none)) ∧
    (∀ (users domains rooms : List String),
      process_incoming_card_action
        { commands := [cbCmd], help_command := helpCmd,
          approved_users := users, approved_domains := domains,
          approved_rooms := rooms } lookupEmpty aaCb actCb =
      ({ sent := [{ roomId := Option.some "room1",
                    parentId := Option.some "a1",
                    markdown := Option.some "done" }],
         phases_run := ["pre_execute", "card_callback"] },
       Option.none)) := by
  constructor
  · intro bot lookup tm act h1 h2
    simp [process_incoming_message, h1, h2, Trace.empty]
  · intro users domains rooms
    rfl

/-- C3 witness for the amended statement: the denied plain-text message from
`bob@y.com` produces no effects, while the same sender's card action is
dispatched whatever the approval lists (here `botCb`'s). -/
theorem c3_text_denied_silently_card_unchecked_witness :
    process_incoming_message botCb lookupEmpty tmCb actCb =
      (Trace.empty, Option.none) ∧
    process_incoming_card_action
      { commands := [cbCmd], help_command := helpCmd,
        approved_users := ["alice@x.com"], approved_domains := [],
        approved_rooms := [] } lookupEmpty aaCb actCb =
    ({ sent := [{ roomId := Option.some "room1",
                  parentId := Option.some "a1",
                  markdown := Option.some "done" }],
       phases_run := ["pre_execute", "card_callback"] },
     Option.none) :=
  ⟨c3_text_denied_silently_card_unchecked.1 botCb lookupEmpty tmCb actCb
      rfl rfl,
   c3_text_denied_silently_card_unchecked.2 ["alice@x.com"] [] []⟩

/-- C8: an `ApiError` from the membership lookup of one room is caught and
that room is treated as non-member, the scan continuing with the remaining
rooms; membership found in a later room still yields approval, and the
check returns a value rather than propagating the failure. -/
theorem c8_lookup_failure_nonfatal :
    (∀ (lookup : MembershipLookup) (u room : String) (rooms : List String),
      lookup room u = .error () →
      is_user_member_of_room lookup u (room :: rooms) =
        is_user_member_of_room lookup u rooms) ∧
    (∀ (lookup : MembershipLookup) (u r1 r2 : String) (members : List String),
      lookup r1 u = .error () → lookup r2 u = .ok members →
      members.contains u = true →
      is_user_member_of_room lookup u [r1, r2] = true) ∧
    (∀ (bot : Bot) (lookup : MembershipLookup) (u r1 r2 : String)
        (members : List String),
      bot.approved_users = [] → bot.approved_domains = [] →
      lookup r1 u = .error () → lookup r2 u = .ok members →
      members.contains u = true →
      check_user_approved bot lookup u [r1, r2] = .ok true) := by
  refine ⟨?_, ?_, ?_⟩
  · intro lookup u room rooms h
    simp [is_user_member_of_room, h]
  · intro lookup u r1 r2 members h1 h2 h3
    simp only [is_user_member_of_room, List.foldl_cons, List.foldl_nil, h1, h2]
    rw [foldl_member_flag]
    simpa using h3
  · intro bot lookup u r1 r2 members hu hd h1 h2 h3
    have hm : is_user_member_of_room lookup u [r1, r2] = true := by
      simp only [is_user_member_of_room, List.foldl_cons, List.foldl_nil, h1, h2]
      rw [foldl_member_flag]
      simpa using h3
    simp [check_user_approved, check_user_approved_rest, hu, hd, hm]

/-- C8 witness: `lookupR` fails with an `ApiError` on room `r1` and finds
the user on room `r2`; the scan and the surrounding approval check both
succeed. -/
theorem c8_lookup_failure_nonfatal_witness :
    is_user_member_of_room lookupR "u@x" ["r1", "r2"] =
      is_user_member_of_room lookupR "u@x" ["r2"] ∧
    is_user_member_of_room lookupR "u@x" ["r1", "r2"] = true ∧
    check_user_approved botOpen lookupR "u@x" ["r1", "r2"] = .ok true :=
  ⟨c8_lookup_failure_nonfatal.1 lookupR "u@x" "r1" ["r2"] rfl,
   c8_lookup_failure_nonfatal.2.1 lookupR "u@x" "r1" "r2" ["u@x"] rfl rfl
     (by decide),
   c8_lookup_failure_nonfatal.2.2 botOpen lookupR "u@x" "r1" "r2" ["u@x"]
     rfl rfl rfl rfl (by decide)⟩


/-- C9: (i) the registry built at construction contains the help command;
(ii) `add_command`, the only registry operation, never removes a registered
command; (iii) a plain-text event matching no command, with no fallback
handler registered, is dispatched to the help command; (iv)/(v) the help
reply's lines enumerate exactly the registered commands whose keyword is
not `"help"`, each as its keyword and help text. -/
theorem c9_help_fallback_and_enumeration :
    (∀ (help_command : Command) (include_demo_commands : Bool),
      ∃ cmds, webexBot_initial_commands help_command include_demo_commands =
          .ok cmds ∧ help_command ∈ cmds) ∧
    (∀ (cmds : List Command) (c : Command) (cmds' : List Command),
      add_command cmds c = .ok cmds' → ∀ x ∈ cmds, x ∈ cmds') ∧
    (∀ (bot : Bot) (lookup : MembershipLookup) (raw_message : String)
        (teams_message : TeamsMessage) (user_email : String)
        (activity : Activity),
      bot.default_handler = false →
      find_matching_command false (pyLower raw_message) bot.commands =
        Option.none →
      process_raw_command bot lookup raw_message teams_message user_email
          activity false =
        dispatch_matched_command bot bot.help_command raw_message
          teams_message activity false user_email) ∧
    (∀ (cmds : List Command) (c : Command),
      c ∈ cmds → c.command_keyword ≠ "help" →
      ("\\" ++ c.command_keyword ++ " - " ++ c.help_message) ∈
        help_lines cmds) ∧
    (∀ (cmds : List Command) (s : String),
      s ∈ help_lines cmds →
      ∃ c, c ∈ cmds ∧ c.command_keyword ≠ "help" ∧
        s = "\\" ++ c.command_keyword ++ " - " ++ c.help_message) := by
  refine ⟨?_, ?_, ?_, ?_, ?_⟩
  · intro help_command include_demo_commands
    cases include_demo_commands with
    | false => exact ⟨[help_command], rfl, by simp⟩
    | true => exact ⟨[help_command, EchoCommand], rfl, by simp⟩
  · intro cmds c cmds' h x hx
    rw [add_command] at h
    split at h
    · exact absurd h (by simp)
    · rw [Except.ok.injEq] at h
      subst h
      exact List.mem_append_left _ hx
  · intro bot lookup raw_message teams_message user_email activity h1 h2
    simp [process_raw_command, h1, h2]
  · intro cmds c hc hk
    simp only [help_lines, List.mem_map]
    exact ⟨c, List.mem_filter.mpr ⟨hc, by simpa using hk⟩, rfl⟩
  · intro cmds s hs
    simp only [help_lines, List.mem_map] at hs
    obtain ⟨c, hc, hline⟩ := hs
    have := List.mem_filter.mp hc
    exact ⟨c, this.1, by simpa using this.2, hline.symm⟩

/-- C9 witness: each conjunct instantiated — construction with demo
commands, preservation by one registration, help fallback on a no-match
input for an empty registry, and the help lines of the demo registry. -/
theorem c9_help_fallback_and_enumeration_witness :
    (∃ cmds, webexBot_initial_commands helpCmd true = .ok cmds ∧
      helpCmd ∈ cmds) ∧
    helpCmd ∈ [helpCmd, cmdA] ∧
    process_raw_command botNoMatch lookupEmpty "zzz" tm0 "u@x.com" act0
        false =
      dispatch_matched_command botNoMatch botNoMatch.help_command "zzz" tm0
        act0 false "u@x.com" ∧
    ("\\echo - Echo back what you said.") ∈
      help_lines [helpCmd, EchoCommand] ∧
    (∃ c, c ∈ [helpCmd, EchoCommand] ∧ c.command_keyword ≠ "help" ∧
      "\\echo - Echo back what you said." =
        "\\" ++ c.command_keyword ++ " - " ++ c.help_message) :=
  ⟨c9_help_fallback_and_enumeration.1 helpCmd true,
   c9_help_fallback_and_enumeration.2.1 [helpCmd] cmdA [helpCmd, cmdA] rfl
     helpCmd (by simp),
   c9_help_fallback_and_enumeration.2.2.1 botNoMatch lookupEmpty "zzz" tm0
     "u@x.com" act0 rfl rfl,
   c9_help_fallback_and_enumeration.2.2.2.1 [helpCmd, EchoCommand]
     EchoCommand (by simp) (by decide),
   c9_help_fallback_and_enumeration.2.2.2.2 [helpCmd, EchoCommand]
     "\\echo - Echo back what you said." (by decide)⟩

/-- C10: with a non-empty approved-domains list (which already falsifies
the open-scope rule), `check_user_approved` on an email holding no `'@'`
raises `IndexError` from `user_email.split('@')[1]` instead of returning
`approved=false`; when the email does hold an `'@'`, the check always
returns a value, so it is total exactly under that precondition. -/
theorem c10_split_indexerror_without_at :
    (∀ (bot : Bot) (lookup : MembershipLookup) (user_email : String)
        (approved_rooms : List String),
      bot.approved_domains ≠ [] → '@' ∉ user_email.data →
      check_user_approved bot lookup user_email approved_rooms =
        .error .indexError) ∧
    (∀ (bot : Bot) (lookup : MembershipLookup) (user_email : String)
        (approved_rooms : List String),
      '@' ∈ user_email.data →
      ∃ b, check_user_approved bot lookup user_email approved_rooms =
        .ok b) := by
  constructor
  · intro bot lookup user_email approved_rooms h1 h2
    have hlen : bot.approved_domains.length ≠ 0 := by
      simpa [List.length_eq_zero] using h1
    have hpos : 0 < bot.approved_domains.length := Nat.pos_of_ne_zero hlen
    have hs : (pySplit user_email '@')[1]? = Option.none := by
      simp [pySplit, splitChar_eq_of_not_mem '@' user_email.data h2]
    simp [check_user_approved, hlen, hpos, hs]
  · intro bot lookup user_email approved_rooms h
    have h2 : 2 ≤ (splitChar '@' user_email.data).length :=
      splitChar_length_of_mem '@' user_email.data h
    have hd : ∃ d, (pySplit user_email '@')[1]? = Option.some d := by
      have hlt : 1 < (pySplit user_email '@').length := by
        simpa [pySplit] using h2
      exact ⟨_, List.getElem?_eq_getElem hlt⟩
    obtain ⟨d, hd⟩ := hd
    rw [check_user_approved]
    split
    · exact ⟨true, rfl⟩
    · split
      · simp only [hd]
        split
        · exact ⟨true, rfl⟩
        · exact ⟨_, rfl⟩
      · exact ⟨_, rfl⟩

/-- C10 witness: the domain-restricted bot errors on `"noatsign"` and
returns a value on `"a@example.com"`. -/
theorem c10_split_indexerror_without_at_witness :
    check_user_approved botDomains lookupEmpty "noatsign" [] =
      .error .indexError ∧
    ∃ b, check_user_approved botDomains lookupEmpty "a@example.com" [] =
      .ok b :=
  ⟨c10_split_indexerror_without_at.1 botDomains lookupEmpty "noatsign" []
     (by decide) (by decide),
   c10_split_indexerror_without_at.2 botDomains lookupEmpty "a@example.com"
     [] (by decide)⟩

end WebexBot
